import Mathlib

/-!
Verification development for the live queue-status client in
`backend/app/crud/queue_status.py` (class `QueueStatusManager`).

The Python source is shallowly embedded: Python strings become `String`
(manipulated mostly through their `List Char` image), Python dicts become
insertion-ordered association lists with update-in-place semantics, the
stateful AMI session becomes an explicit state record plus traces of
protocol actions, and the unbounded read loops become fuel-indexed
functions together with a one-iteration step function.
-/

namespace CrudQueueStatus

/-! ## Python string primitives -/

/-- ASCII whitespace stripped by `str.strip()` on protocol text. -/
def isPySpace (c : Char) : Bool :=
  c = ' ' ∨ c = '\t' ∨ c = '\n' ∨ c = '\r' ∨ c.val = 0x0b ∨ c.val = 0x0c

/-- Python `str.strip()` on the character list: drop whitespace from both ends. -/
def pyStripL (cs : List Char) : List Char :=
  ((cs.dropWhile isPySpace).reverse.dropWhile isPySpace).reverse

/-- Python `str.strip()` on a `String`. -/
def pyStrip (s : String) : String := String.mk (pyStripL s.data)

/-- List starts with the given pattern. -/
def startsWithL : List Char → List Char → Bool
  | [], _ => true
  | _ :: _, [] => false
  | a :: as, b :: bs => a = b && startsWithL as bs

/-- Python's `needle in hay` substring test on character lists. -/
def isSubstrL (n : List Char) : List Char → Bool
  | [] => n.isEmpty
  | c :: t => startsWithL n (c :: t) || isSubstrL n t

/-- Python's `needle in hay` on strings. -/
def isSubstrS (n h : String) : Bool := isSubstrL n.data h.data

/-- Python `str.lower()` (ASCII-relevant part) on the character list. -/
def lowerL (cs : List Char) : List Char := cs.map Char.toLower

/-- Characters the `str.splitlines()` method treats as line breaks. -/
def isLB (c : Char) : Bool :=
  c = '\n' ∨ c = '\r' ∨ c.val = 0x0b ∨ c.val = 0x0c ∨
  c.val = 0x1c ∨ c.val = 0x1d ∨ c.val = 0x1e ∨ c.val = 0x85 ∨
  c.val = 0x2028 ∨ c.val = 0x2029

/-- Worker of `str.splitlines()`: `acc` is the reversed current line;
`"\r\n"` counts as a single line break. -/
def splitlinesAux : List Char → List Char → List (List Char)
  | [], acc => if acc.isEmpty then [] else [acc.reverse]
  | '\r' :: '\n' :: rest, acc => acc.reverse :: splitlinesAux rest []
  | '\r' :: rest, acc => acc.reverse :: splitlinesAux rest []
  | c :: rest, acc =>
    if isLB c then acc.reverse :: splitlinesAux rest []
    else splitlinesAux rest (c :: acc)

/-- Python `str.splitlines()` on the character list. -/
def splitlinesL (cs : List Char) : List (List Char) := splitlinesAux cs []

/-- Python `line.split(":", 1)`: split at the first colon, when there is one. -/
def splitAtColon : List Char → Option (List Char × List Char)
  | [] => none
  | ':' :: rest => some ([], rest)
  | c :: rest => (splitAtColon rest).map (fun p => (c :: p.1, p.2))

/-! ## Python dict with insertion order -/

/-- Assignment `d[k] = v` on an insertion-ordered dict: update in place, else append. -/
def dictSet {α : Type} (d : List (String × α)) (k : String) (v : α) :
    List (String × α) :=
  if d.any (fun p => p.1 = k) then
    d.map (fun p => if p.1 = k then (k, v) else p)
  else d ++ [(k, v)]

/-- Lookup `d.get(k)`: the stored value, if present. -/
def dGet {α : Type} (d : List (String × α)) (k : String) : Option α :=
  (d.find? (fun p => p.1 = k)).map (fun p => p.2)

/-- A decoded AMI event: ordered field-name → value mapping. -/
abbrev Event := List (String × String)

/-- Python `event.get(k, "")` and the falsy treatment of a missing field. -/
def evGet (e : Event) (k : String) : String := (dGet e k).getD ""

/-! ## Protocol framer: `_parse_block` (queue_status.py lines 310-316) -/

/-- One iteration of the `_parse_block` line loop: lines with a colon are
split at the first colon, both halves stripped, stored with last-wins dict
semantics; lines without a colon are ignored. -/
def parseLineStep (d : Event) (line : List Char) : Event :=
  match splitAtColon line with
  | some (k, v) => dictSet d (String.mk (pyStripL k)) (String.mk (pyStripL v))
  | none => d

/-- Model of `_parse_block` over an already-split list of lines. -/
def parseLines (ls : List (List Char)) : Event := ls.foldl parseLineStep []

/-- Model of `_parse_block` on a raw block given as a character list. -/
def parseBlockL (b : List Char) : Event := parseLines (splitlinesL b)

/-- Model of `_parse_block` on a raw block string. -/
def parseBlock (s : String) : Event := parseBlockL s.data

/-- Re-encoding of one decoded field as a protocol line. -/
def encodeField (k v : String) : String := k ++ ": " ++ v

/-! ## Status label (queue_status.py lines 146-156) -/

/-- The member status label computed from `Paused` and the numeric
`Status` code of a `QueueMember` event. -/
def statusLabel (isPaused : Bool) (statusCode : Int) : String :=
  if isPaused then "paused"
  else if statusCode = 1 ∨ statusCode = 6 then "online"
  else if statusCode = 2 ∨ statusCode = 3 ∨ statusCode = 7 ∨ statusCode = 8 then "busy"
  else "offline"

/-! ## Channel ingestion (queue_status.py lines 94-114) -/

/-- The per-channel record stored in `channel_map` by the `Status` loop. -/
structure ChanDetails where
  num : String
  name : String
  application : String
  data : String
  state : String
  connected_line : String
  caller_id : String
deriving DecidableEq, Repr

/-- The dict `channel_map`: insertion-ordered dict keyed by lowercased channel name. -/
abbrev ChanMap := List (String × ChanDetails)

/-- Processing of one decoded block by the `Status` loop body: a `Status`
event whose first non-empty of `ConnectedLineNum`/`CallerIDNum` is present
and not `"<unknown>"` is stored under the lowercased channel name;
everything else leaves the map unchanged. -/
def processStatusEvent (m : ChanMap) (e : Event) : ChanMap :=
  if evGet e "Event" = "Status" then
    let chan := evGet e "Channel"
    let pNum := if evGet e "ConnectedLineNum" ≠ "" then evGet e "ConnectedLineNum"
                else evGet e "CallerIDNum"
    let pName := if evGet e "ConnectedLineName" ≠ "" then evGet e "ConnectedLineName"
                 else evGet e "CallerIDName"
    if pNum ≠ "" ∧ pNum ≠ "<unknown>" then
      dictSet m (String.mk (lowerL chan.data))
        { num := pNum
          name := if pName ≠ "" ∧ pName ≠ "<unknown>" then pName else ""
          application := evGet e "Application"
          data := evGet e "Data"
          state := evGet e "ChannelStateDesc"
          connected_line := evGet e "ConnectedLineNum"
          caller_id := evGet e "CallerIDNum" }
    else m
  else m

/-! ## Connected-party fallback (queue_status.py lines 169-188) -/

/-- The displayed connected-party record. -/
structure Party where
  num : String
  name : String
deriving DecidableEq, Repr

/-- The final `connected_party` dict built from the chosen other-party
number `other`: keep `other` when it is non-empty and differs from the
member's own extension, else fall back to the originally recorded number. -/
def partyFromOther (other : String) (d : ChanDetails) (extNum : String) : Party :=
  { num := if other ≠ "" ∧ other ≠ extNum then other else d.num
    name := if other ≠ d.num then d.name else "" }

/-- The connected-party computation for one matched non-monitor channel:
start from `connected_line`; when that is empty, equals the member's own
extension, or is the literal `"<unknown>"`, use `caller_id` instead. -/
def connectedPartyFor (d : ChanDetails) (extNum : String) : Party :=
  partyFromOther
    (if d.connected_line = "" ∨ d.connected_line = extNum ∨ d.connected_line = "<unknown>"
     then d.caller_id else d.connected_line)
    d extNum

/-! ## Monitor (spy) detection (queue_status.py lines 190-210) -/

/-- The spy-mode flags parsed from the `ChanSpy` application data. -/
def spyModeOf (data : String) : String :=
  if (lowerL data.data).contains 'w' then "Whisper"
  else if data.data.contains 'b' then "Barge"
  else if (lowerL data.data).contains 'd' then "Interactive Spy"
  else "Listen"

/-- After a `'/'` in the channel key, the regex
`/(?:extension-)?(\d+)` matches a digit run, optionally preceded by the
literal `extension-`. -/
def afterSlash (cs : List Char) : Option String :=
  let direct := cs.takeWhile Char.isDigit
  if direct ≠ [] then some (String.mk direct)
  else if startsWithL ("extension-".data) cs then
    let ds := (cs.drop 10).takeWhile Char.isDigit
    if ds ≠ [] then some (String.mk ds) else none
  else none

/-- Model of `re.search` for `/(?:extension-)?(\d+)`: leftmost match wins. -/
def spyerSearch : List Char → Option String
  | [] => none
  | '/' :: rest =>
    match afterSlash rest with
    | some ds => some ds
    | none => spyerSearch rest
  | _ :: rest => spyerSearch rest

/-- The observing extension: the channel's stored party number when it is
non-empty and not `"<unknown>"`, else the digits extracted from the
channel key, else the generic label. -/
def spyerOf (d : ChanDetails) (chanKey : String) : String :=
  if d.num ≠ "" ∧ d.num ≠ "<unknown>" then d.num
  else (spyerSearch chanKey.data).getD "Supervisor"

/-- The reported monitor status for a member. -/
structure SpyInfo where
  spyer : String
  mode : String
deriving DecidableEq, Repr

/-- The channel-correlation loop for one `QueueMember` (lines 172-210):
fold over `channel_map`; a matched non-`ChanSpy` channel sets the
connected party, a `ChanSpy` channel whose data contains the interface
sets the spy status; later matches overwrite earlier ones. -/
def correlateMember (m : ChanMap) (interface extNum : String) :
    Option Party × Option SpyInfo :=
  m.foldl
    (fun acc ce =>
      let acc1 :=
        if interface ≠ "" ∧ isSubstrL (lowerL interface.data) ce.1.data = true then
          if ce.2.application ≠ "ChanSpy" then
            (some (connectedPartyFor ce.2 extNum), acc.2)
          else acc
        else acc
      if ce.2.application = "ChanSpy" then
        if interface ≠ "" ∧ isSubstrL interface.data ce.2.data.data = true then
          (acc1.1, some { spyer := spyerOf ce.2 ce.1, mode := spyModeOf ce.2.data })
        else acc1
      else acc1)
    (none, none)

/-! ## Transport session (queue_status.py lines 21-26, 44-76, 228-244,
246-296)

`self.reader`/`self.writer` become an explicit state record (handles are
`Nat` identifiers; `none` is Python `None`).  Each operation additionally
yields the trace of externally visible protocol actions it performs, in
order. -/

/-- Externally visible protocol actions of the session. -/
inductive Act where
  | ping
  | readBlock
  | closeW
  | connect
  | banner
  | sendLogin
  | loginAck
  | originate
deriving DecidableEq, Repr

/-- The mutable connection state of `QueueStatusManager`. -/
structure SessState where
  reader : Option Nat
  writer : Option Nat
deriving DecidableEq, Repr

/-- Outcome of the `Ping` keepalive probe of an existing connection:
a reply containing `Response: Success` or `Pong` within the bounded wait
(`success`), a well-formed reply without either marker (`badReply`), or an
exception / timeout during the probe's write or read (`exn`). -/
inductive ProbeOutcome where
  | success
  | badReply
  | exn
deriving DecidableEq, Repr

/-- Model of `_ensure_connected` (lines 44-76), assuming the reconnect itself
succeeds with fresh handle `newId`: with a live writer it pings; a success
reply returns at once; an exception closes the writer and clears it; a
marker-less reply just falls through; absent a live writer (or after
fall-through) it connects, discards the banner, sends `Login` and awaits
the acknowledgment, storing both fresh stream halves. -/
def ensureConnected (s : SessState) (p : ProbeOutcome) (newId : Nat) :
    List Act × SessState :=
  match s.writer with
  | some _ =>
    match p with
    | .success => ([.ping, .readBlock], s)
    | .badReply =>
      ([.ping, .readBlock, .connect, .banner, .sendLogin, .loginAck],
       ⟨some newId, some newId⟩)
    | .exn =>
      ([.ping, .closeW, .connect, .banner, .sendLogin, .loginAck],
       ⟨some newId, some newId⟩)
  | none => ([.connect, .banner, .sendLogin, .loginAck], ⟨some newId, some newId⟩)

/-- The `except` handler of `get_queue_status` (lines 228-244): close the
writer when present, set it to `None`; `self.reader` is not touched. -/
def pollCleanup (s : SessState) : List Act × SessState :=
  (if s.writer.isSome then [Act.closeW] else [], ⟨s.reader, none⟩)

/-- The `except` handler of `perform_spy_action` (lines 292-296): set the
writer to `None` without closing it; `self.reader` is not touched. -/
def spyCleanup (s : SessState) : List Act × SessState :=
  ([], ⟨s.reader, none⟩)

/-- Shape of one returned queue; only used to type the error-path result
of `get_queue_status`, whose success-path construction is not needed by
the claims below. -/
structure QueueView where
  name : String
  members : List Party
deriving DecidableEq, Repr

/-- The result and state transition of `get_queue_status` on any execution
in which a network-level timeout or exception escapes (lines 228-244):
the empty list is returned after the cleanup ran. -/
def getQueueStatusOnError (s : SessState) : List QueueView × List Act × SessState :=
  ([], (pollCleanup s).1, (pollCleanup s).2)

/-- Structured result of `perform_spy_action`. -/
structure SpyResult where
  status : String
  message : String
deriving DecidableEq, Repr

/-- The tail of `perform_spy_action` (lines 280-290) after the connection
is ensured: write the `Originate` command, read exactly one response
block `resp`, and classify it by the `Success` / `Queued` markers. -/
def performSpy (targetInterface mode resp : String) : SpyResult × List Act :=
  (if isSubstrS "Success" resp = true ∨ isSubstrS "Queued" resp = true then
     { status := "success"
       message := "Spy " ++ mode ++ " initiated for " ++ targetInterface }
   else
     { status := "error", message := "AMI error: " ++ pyStrip resp },
   [Act.originate, Act.readBlock])

/-! ## Read loops and their termination (queue_status.py lines 94-129,
298-308)

The byte stream is modelled as the list of lines `readline` will deliver
before end-of-file; at end-of-file `readline` returns the empty line
forever, which is exactly the `if not line: break` case of
`_read_until_delimiter`.  The unbounded `while True` loops of
`get_queue_status` become fuel-indexed functions (`none` = the loop did
not finish within the given number of iterations) plus a one-iteration
step function. -/

/-- Python `content.endswith("\r\n\r\n")`. -/
def endsWithDelim (cs : List Char) : Bool :=
  startsWithL ['\n', '\r', '\n', '\r'] cs.reverse

/-- Model of `_read_until_delimiter` (lines 298-308): accumulate lines until the
stream is exhausted (or delivers the empty read) or the content ends with
the double-CRLF delimiter; returns the content and the remaining stream. -/
def readUntilDelim : List (List Char) → List Char → List Char × List (List Char)
  | [], acc => (acc, [])
  | l :: rest, acc =>
    if l.isEmpty then (acc, rest)
    else if endsWithDelim (acc ++ l) then (acc ++ l, rest)
    else readUntilDelim rest (acc ++ l)

/-- The `Status` block loop of `get_queue_status` (lines 94-114) with
explicit fuel: read a block, stop on a `StatusComplete` event, otherwise
ingest the block into the channel map and continue. -/
def statusLoopFuel : Nat → List (List Char) → ChanMap → Option ChanMap
  | 0, _, _ => none
  | n + 1, s, m =>
    if evGet (parseBlockL (readUntilDelim s []).1) "Event" = "StatusComplete" then
      some m
    else
      statusLoopFuel n (readUntilDelim s []).2
        (processStatusEvent m (parseBlockL (readUntilDelim s []).1))

/-- One iteration of the `Status` block loop: either the loop exits with
the channel map (`Sum.inr`) or continues in a new state (`Sum.inl`). -/
def statusLoopStep (s : List (List Char)) (m : ChanMap) :
    (List (List Char) × ChanMap) ⊕ ChanMap :=
  if evGet (parseBlockL (readUntilDelim s []).1) "Event" = "StatusComplete" then
    Sum.inr m
  else
    Sum.inl ((readUntilDelim s []).2,
      processStatusEvent m (parseBlockL (readUntilDelim s []).1))

/-- The `QueueStatus` block loop (lines 120-129) with explicit fuel,
collecting the decoded blocks it processes: an empty block breaks, a
`QueueStatusComplete` event breaks, the "will follow" acknowledgment is
skipped, every other block is kept. -/
def queueLoopFuel : Nat → List (List Char) → List Event → Option (List Event)
  | 0, _, _ => none
  | n + 1, s, acc =>
    if (readUntilDelim s []).1.isEmpty then some acc
    else if evGet (parseBlockL (readUntilDelim s []).1) "Event" =
        "QueueStatusComplete" then some acc
    else if evGet (parseBlockL (readUntilDelim s []).1) "Response" = "Success"
        ∧ isSubstrL ("status will follow".data)
            ((evGet (parseBlockL (readUntilDelim s []).1) "Message").data) = true then
      queueLoopFuel n (readUntilDelim s []).2 acc
    else
      queueLoopFuel n (readUntilDelim s []).2
        (acc ++ [parseBlockL (readUntilDelim s []).1])

/-! ## Lemmas and the claims -/

theorem startsWithL_refl (cs : List Char) : startsWithL cs cs = true := by
  induction cs with
  | nil => rfl
  | cons c t ih => simp [startsWithL, ih]

theorem isSubstrL_self (n : List Char) : isSubstrL n n = true := by
  cases n with
  | nil => rfl
  | cons c t => simp [isSubstrL, startsWithL_refl]

theorem isSubstrL_append_left (n pre hay : List Char)
    (h : isSubstrL n hay = true) : isSubstrL n (pre ++ hay) = true := by
  induction pre with
  | nil => simpa using h
  | cons c rest ih => simp [isSubstrL, ih]

theorem partyFromOther_num (other : String) (d : ChanDetails) (extNum : String) :
    (partyFromOther other d extNum).num =
      if other ≠ "" ∧ other ≠ extNum then other else d.num := rfl

/-- Claim C1: the derived status label is a pure function of the paused
flag and the numeric status code: `Paused=1` always yields `paused`;
otherwise codes 1 and 6 yield `online`, codes 2, 3, 7, 8 yield `busy`,
and every other integer code yields `offline`. -/
theorem statusLabel_pure_mapping (statusCode : Int) :
    (statusLabel true statusCode = "paused")
    ∧ (statusCode = 1 ∨ statusCode = 6 →
        statusLabel false statusCode = "online")
    ∧ (statusCode = 2 ∨ statusCode = 3 ∨ statusCode = 7 ∨ statusCode = 8 →
        statusLabel false statusCode = "busy")
    ∧ (¬(statusCode = 1 ∨ statusCode = 6) →
        ¬(statusCode = 2 ∨ statusCode = 3 ∨ statusCode = 7 ∨ statusCode = 8) →
        statusLabel false statusCode = "offline") := by
  refine ⟨rfl, ?_, ?_, ?_⟩
  · intro h
    simp [statusLabel, h]
  · intro h
    have h16 : ¬(statusCode = 1 ∨ statusCode = 6) := by
      rcases h with h | h | h | h <;> omega
    simp [statusLabel, h16, h]
  · intro h16 h2378
    simp [statusLabel, h16, h2378]

/-- Concrete instantiation of `statusLabel_pure_mapping`, covering one code
from each band (paused wins at code 1; 6 online; 7 busy; 9 offline). -/
theorem statusLabel_pure_mapping_witness :
    statusLabel true 1 = "paused" ∧ statusLabel false 6 = "online"
    ∧ statusLabel false 7 = "busy" ∧ statusLabel false 9 = "offline" :=
  ⟨(statusLabel_pure_mapping 1).1,
   (statusLabel_pure_mapping 6).2.1 (Or.inr rfl),
   (statusLabel_pure_mapping 7).2.2.1 (Or.inr (Or.inr (Or.inl rfl))),
   (statusLabel_pure_mapping 9).2.2.2 (by omega) (by omega)⟩

/-- Claim C2: for a member correlated to a non-monitor channel the loop
stores `connectedPartyFor`; its number is the connected-line number unless
that is empty, the literal unknown marker, or the member's own extension,
in which case the caller-ID number is used; if that fallback equals the
member's own extension, the originally recorded channel number is
surfaced; a recorded number is never replaced by the empty field. -/
theorem connectedParty_fallback_chain (d : ChanDetails) (key intf ext : String) :
    (intf ≠ "" → isSubstrL (lowerL intf.data) key.data = true →
      d.application ≠ "ChanSpy" →
      (correlateMember [(key, d)] intf ext).1 = some (connectedPartyFor d ext))
    ∧ (d.connected_line ≠ "" → d.connected_line ≠ "<unknown>" →
        d.connected_line ≠ ext →
        (connectedPartyFor d ext).num = d.connected_line)
    ∧ ((d.connected_line = "" ∨ d.connected_line = "<unknown>" ∨
          d.connected_line = ext) →
        d.caller_id ≠ "" → d.caller_id ≠ ext →
        (connectedPartyFor d ext).num = d.caller_id)
    ∧ ((d.connected_line = "" ∨ d.connected_line = "<unknown>" ∨
          d.connected_line = ext) →
        d.caller_id = ext →
        (connectedPartyFor d ext).num = d.num)
    ∧ (d.num ≠ "" → (connectedPartyFor d ext).num ≠ "") := by
  have hor : ∀ a b c : Prop, a ∨ b ∨ c → a ∨ c ∨ b := by tauto
  refine ⟨?_, ?_, ?_, ?_, ?_⟩
  · intro h1 h2 h3
    simp [correlateMember, h1, h2, h3]
  · intro h1 h2 h3
    simp [connectedPartyFor, partyFromOther, h1, h2, h3]
  · intro h h1 h2
    unfold connectedPartyFor partyFromOther
    rw [if_pos (hor _ _ _ h)]
    simp [h1, h2]
  · intro h h1
    unfold connectedPartyFor partyFromOther
    rw [if_pos (hor _ _ _ h)]
    simp [h1]
  · intro hnum
    unfold connectedPartyFor
    rw [partyFromOther_num]
    split_ifs with h1 h2 h3
    · exact h2.1
    · exact hnum
    · exact h3.1
    · exact hnum

/-- Concrete instantiation of `connectedParty_fallback_chain`: a bridged
channel whose connected line is usable shows it; a channel whose connected
line equals the member's own extension falls back to the caller ID. -/
theorem connectedParty_fallback_chain_witness :
    (correlateMember
        [("pjsip/102-0001",
          ⟨"201", "Bob", "Dial", "", "Up", "201", "102"⟩)] "PJSIP/102" "102").1 =
      some (connectedPartyFor ⟨"201", "Bob", "Dial", "", "Up", "201", "102"⟩ "102")
    ∧ (connectedPartyFor ⟨"102", "", "Dial", "", "Up", "102", "201"⟩ "102").num = "201"
    ∧ (connectedPartyFor ⟨"102", "", "Dial", "", "Up", "102", "102"⟩ "102").num = "102" :=
  ⟨(connectedParty_fallback_chain ⟨"201", "Bob", "Dial", "", "Up", "201", "102"⟩
      "pjsip/102-0001" "PJSIP/102" "102").1 (by decide) (by decide) (by decide),
   (connectedParty_fallback_chain ⟨"102", "", "Dial", "", "Up", "102", "201"⟩
      "" "" "102").2.2.1 (Or.inr (Or.inr rfl)) (by decide) (by decide),
   (connectedParty_fallback_chain ⟨"102", "", "Dial", "", "Up", "102", "102"⟩
      "" "" "102").2.2.2.1 (Or.inr (Or.inr rfl)) rfl⟩

/-- Claim C3: for a monitor channel whose application data contains the
member's interface, the loop reports `spyModeOf` of that data, and the
mode flags are checked in the order whisper (case-insensitive), barge,
interactive, defaulting to listen; in particular data with both whisper
and barge flags yields whisper, only barge yields barge, neither yields
listen. -/
theorem spyMode_precedence (dat : String) (d : ChanDetails) (key intf ext : String) :
    (d.application = "ChanSpy" → intf ≠ "" →
      isSubstrL intf.data d.data.data = true →
      (correlateMember [(key, d)] intf ext).2 =
        some ⟨spyerOf d key, spyModeOf d.data⟩)
    ∧ ((lowerL dat.data).contains 'w' = true → spyModeOf dat = "Whisper")
    ∧ ((lowerL dat.data).contains 'w' = false → dat.data.contains 'b' = true →
        spyModeOf dat = "Barge")
    ∧ ((lowerL dat.data).contains 'w' = false → dat.data.contains 'b' = false →
        (lowerL dat.data).contains 'd' = true → spyModeOf dat = "Interactive Spy")
    ∧ ((lowerL dat.data).contains 'w' = false → dat.data.contains 'b' = false →
        (lowerL dat.data).contains 'd' = false → spyModeOf dat = "Listen")
    ∧ spyModeOf "PJSIP/102,wb" = "Whisper"
    ∧ spyModeOf "PJSIP/102,b" = "Barge"
    ∧ spyModeOf "PJSIP/102,q" = "Listen" := by
  refine ⟨?_, ?_, ?_, ?_, ?_, by decide, by decide, by decide⟩
  · intro h1 h2 h3
    simp [correlateMember, h1, h2, h3]
  · intro h
    have h' : 'w' ∈ lowerL dat.data := by simpa using h
    simp [spyModeOf, h']
  · intro h1 h2
    have h1' : 'w' ∉ lowerL dat.data := by simpa using h1
    have h2' : 'b' ∈ dat.data := by simpa using h2
    simp [spyModeOf, h1', h2']
  · intro h1 h2 h3
    have h1' : 'w' ∉ lowerL dat.data := by simpa using h1
    have h2' : 'b' ∉ dat.data := by simpa using h2
    have h3' : 'd' ∈ lowerL dat.data := by simpa using h3
    simp [spyModeOf, h1', h2', h3']
  · intro h1 h2 h3
    have h1' : 'w' ∉ lowerL dat.data := by simpa using h1
    have h2' : 'b' ∉ dat.data := by simpa using h2
    have h3' : 'd' ∉ lowerL dat.data := by simpa using h3
    simp [spyModeOf, h1', h2', h3']

/-- Concrete instantiation of `spyMode_precedence`: a supervisor channel
running `ChanSpy` on `PJSIP/102` with a whisper flag is reported with mode
`Whisper`. -/
theorem spyMode_precedence_witness :
    (correlateMember
        [("pjsip/104-0002",
          ⟨"104", "", "ChanSpy", "PJSIP/102,wq", "Up", "", "104"⟩)]
        "PJSIP/102" "102").2 =
      some ⟨spyerOf ⟨"104", "", "ChanSpy", "PJSIP/102,wq", "Up", "", "104"⟩
              "pjsip/104-0002",
            spyModeOf "PJSIP/102,wq"⟩
    ∧ spyModeOf "PJSIP/102,wq" = "Whisper" :=
  ⟨(spyMode_precedence "" ⟨"104", "", "ChanSpy", "PJSIP/102,wq", "Up", "", "104"⟩
      "pjsip/104-0002" "PJSIP/102" "102").1 rfl (by decide) (by decide),
   (spyMode_precedence "PJSIP/102,wq" ⟨"", "", "", "", "", "", ""⟩
      "" "" "").2.1 (by decide)⟩

/-- Claim C10: a `Status` event whose connected-line number and caller-ID
number are both absent or the literal `"<unknown>"` is not added to the
channel map, so member correlation (connected party and monitor
detection) is unaffected by it. -/
theorem statusIngest_unknown_excluded (m : ChanMap) (e : Event) (intf ext : String)
    (hev : evGet e "Event" = "Status")
    (hcl : evGet e "ConnectedLineNum" = "" ∨ evGet e "ConnectedLineNum" = "<unknown>")
    (hci : evGet e "CallerIDNum" = "" ∨ evGet e "CallerIDNum" = "<unknown>") :
    processStatusEvent m e = m
    ∧ correlateMember (processStatusEvent m e) intf ext =
        correlateMember m intf ext := by
  have hm : processStatusEvent m e = m := by
    unfold processStatusEvent
    rw [if_pos hev]
    rcases hcl with h1 | h1 <;> rcases hci with h2 | h2 <;> simp [h1, h2]
  exact ⟨hm, by rw [hm]⟩

/-- Concrete instantiation of `statusIngest_unknown_excluded`: a would-be
`ChanSpy` channel for `PJSIP/102` with unknown connected line and absent
caller ID is ignored, so the member shows no spy status from it. -/
theorem statusIngest_unknown_excluded_witness :
    processStatusEvent []
        [("Event", "Status"), ("Channel", "PJSIP/900-1"),
         ("ConnectedLineNum", "<unknown>"), ("CallerIDNum", ""),
         ("Application", "ChanSpy"), ("Data", "PJSIP/102,w")] = []
    ∧ correlateMember
        (processStatusEvent []
          [("Event", "Status"), ("Channel", "PJSIP/900-1"),
           ("ConnectedLineNum", "<unknown>"), ("CallerIDNum", ""),
           ("Application", "ChanSpy"), ("Data", "PJSIP/102,w")])
        "PJSIP/102" "102" =
      correlateMember [] "PJSIP/102" "102" :=
  statusIngest_unknown_excluded []
    [("Event", "Status"), ("Channel", "PJSIP/900-1"),
     ("ConnectedLineNum", "<unknown>"), ("CallerIDNum", ""),
     ("Application", "ChanSpy"), ("Data", "PJSIP/102,w")]
    "PJSIP/102" "102" (by decide) (Or.inr (by decide)) (Or.inl (by decide))

/-- Claim C4 counterexample: with a live connection whose probe reads a
well-formed reply lacking the success marker (a failed probe), the code
performs the fresh login without ever closing the stale handle, against
the claim that a failed probe closes the stale handle first. -/
theorem ensureConnected_badReply_no_close :
    (ensureConnected ⟨some 0, some 0⟩ ProbeOutcome.badReply 1).1.contains
        Act.closeW = false
    ∧ (ensureConnected ⟨some 0, some 0⟩ ProbeOutcome.badReply 1).1.contains
        Act.sendLogin = true := by
  decide

/-- Claim C4 (amended): a probe success reply returns with no `Login` and
no connect; a probe exception or timeout closes the stale handle and runs
exactly one connect-plus-login; a marker-less probe reply runs exactly one
connect-plus-login but leaves the stale handle unclosed; with no existing
connection, exactly one connect-plus-login runs and nothing is closed. -/
theorem ensureConnected_login_discipline (s : SessState) (newId : Nat) :
    (∀ w, s.writer = some w →
      (ensureConnected s ProbeOutcome.success newId).1.count Act.sendLogin = 0
      ∧ (ensureConnected s ProbeOutcome.success newId).1.count Act.connect = 0
      ∧ (ensureConnected s ProbeOutcome.exn newId).1.count Act.closeW = 1
      ∧ (ensureConnected s ProbeOutcome.exn newId).1.count Act.connect = 1
      ∧ (ensureConnected s ProbeOutcome.exn newId).1.count Act.sendLogin = 1
      ∧ (ensureConnected s ProbeOutcome.badReply newId).1.count Act.closeW = 0
      ∧ (ensureConnected s ProbeOutcome.badReply newId).1.count Act.connect = 1
      ∧ (ensureConnected s ProbeOutcome.badReply newId).1.count Act.sendLogin = 1)
    ∧ (s.writer = none → ∀ p,
      (ensureConnected s p newId).1.count Act.closeW = 0
      ∧ (ensureConnected s p newId).1.count Act.connect = 1
      ∧ (ensureConnected s p newId).1.count Act.sendLogin = 1) := by
  constructor
  · intro w hw
    simp [ensureConnected, hw, List.count_cons, List.count_nil]
  · intro hw p
    simp [ensureConnected, hw, List.count_cons, List.count_nil]

/-- Concrete instantiation of `ensureConnected_login_discipline` at a live
connection with a successful probe: no `Login` is sent. -/
theorem ensureConnected_login_discipline_witness :
    (ensureConnected ⟨some 0, some 0⟩ ProbeOutcome.success 1).1.count
        Act.sendLogin = 0 :=
  ((ensureConnected_login_discipline ⟨some 0, some 0⟩ 1).1 0 rfl).1

/-- Claim C5 counterexample: after the failure handler of
`get_queue_status` runs on a connected session, the reader is still set
while the writer is cleared — exactly one of the two stream halves is
present, so the both-or-neither invariant does not hold. -/
theorem pollCleanup_half_torn :
    ¬((pollCleanup ⟨some 0, some 0⟩).2.reader.isSome =
        (pollCleanup ⟨some 0, some 0⟩).2.writer.isSome) := by
  decide

/-- Claim C5 (amended): every failure path clears the writer (the poll
paths also close it) but leaves the reader reference in place; since
`_ensure_connected` keys liveness on the writer alone, the next operation
reconnects and reassigns both halves together. -/
theorem cleanup_clears_writer_only (s : SessState) (p : ProbeOutcome) (newId : Nat) :
    (pollCleanup s).2.writer = none
    ∧ (spyCleanup s).2.writer = none
    ∧ (pollCleanup s).2.reader = s.reader
    ∧ (spyCleanup s).2.reader = s.reader
    ∧ (ensureConnected (pollCleanup s).2 p newId).2.reader = some newId
    ∧ (ensureConnected (pollCleanup s).2 p newId).2.writer = some newId := by
  simp [pollCleanup, spyCleanup, ensureConnected]

/-- Claim C6: a network-level timeout or exception during
`get_queue_status` yields the empty result list, closes a present writer,
clears it, and the next `_ensure_connected` performs the full
connect-banner-login-acknowledgment sequence from the disconnected
state. -/
theorem getQueueStatus_error_path (s : SessState) (p : ProbeOutcome) (newId : Nat) :
    (getQueueStatusOnError s).1 = []
    ∧ (getQueueStatusOnError s).2.2.writer = none
    ∧ (s.writer.isSome = true → (getQueueStatusOnError s).2.1 = [Act.closeW])
    ∧ (ensureConnected (getQueueStatusOnError s).2.2 p newId).1 =
        [Act.connect, Act.banner, Act.sendLogin, Act.loginAck] := by
  refine ⟨rfl, rfl, ?_, ?_⟩
  · intro h
    simp [getQueueStatusOnError, pollCleanup, h]
  · simp [getQueueStatusOnError, pollCleanup, ensureConnected]

/-- Concrete instantiation of `getQueueStatus_error_path` at a connected
session: empty result, writer closed and cleared, next call logs in
afresh. -/
theorem getQueueStatus_error_path_witness :
    (getQueueStatusOnError ⟨some 0, some 0⟩).1 = []
    ∧ (getQueueStatusOnError ⟨some 0, some 0⟩).2.1 = [Act.closeW]
    ∧ (ensureConnected (getQueueStatusOnError ⟨some 0, some 0⟩).2.2
        ProbeOutcome.success 1).1 =
        [Act.connect, Act.banner, Act.sendLogin, Act.loginAck] :=
  ⟨(getQueueStatus_error_path ⟨some 0, some 0⟩ ProbeOutcome.success 1).1,
   (getQueueStatus_error_path ⟨some 0, some 0⟩ ProbeOutcome.success 1).2.2.1 rfl,
   (getQueueStatus_error_path ⟨some 0, some 0⟩ ProbeOutcome.success 1).2.2.2⟩

/-- Claim C9: after the originate command exactly one response block is
read; the returned status is `success` exactly when the response contains
a `Success` or `Queued` marker, and any other response yields a
structured `{status, message}` failure whose message embeds the stripped
raw response text. -/
theorem performSpy_response (targetInterface mode resp : String) :
    (performSpy targetInterface mode resp).2 = [Act.originate, Act.readBlock]
    ∧ ((performSpy targetInterface mode resp).1.status = "success" ↔
        (isSubstrS "Success" resp = true ∨ isSubstrS "Queued" resp = true))
    ∧ (¬(isSubstrS "Success" resp = true ∨ isSubstrS "Queued" resp = true) →
        (performSpy targetInterface mode resp).1.status = "error"
        ∧ (performSpy targetInterface mode resp).1.message =
            "AMI error: " ++ pyStrip resp
        ∧ isSubstrL (pyStrip resp).data
            ((performSpy targetInterface mode resp).1.message).data = true) := by
  refine ⟨rfl, ?_, ?_⟩
  · constructor
    · intro h
      by_contra hm
      have : (performSpy targetInterface mode resp).1.status = "error" := by
        simp [performSpy, hm]
      rw [this] at h
      exact absurd h (by decide)
    · intro h
      simp [performSpy, h]
  · intro h
    refine ⟨by simp [performSpy, h], by simp [performSpy, h], ?_⟩
    have hm : (performSpy targetInterface mode resp).1.message =
        "AMI error: " ++ pyStrip resp := by simp [performSpy, h]
    rw [hm]
    have : ("AMI error: " ++ pyStrip resp).data =
        "AMI error: ".data ++ (pyStrip resp).data := rfl
    rw [this]
    exact isSubstrL_append_left _ _ _ (isSubstrL_self _)

/-- Concrete instantiation of `performSpy_response`: an error reply gives
a structured failure carrying the stripped raw text, a success reply is
accepted. -/
theorem performSpy_response_witness :
    (performSpy "PJSIP/102" "whisper" "Response: Error\r\nMessage: No such channel\r\n\r\n").1 =
      { status := "error"
        message := "AMI error: " ++ pyStrip "Response: Error\r\nMessage: No such channel\r\n\r\n" }
    ∧ (performSpy "PJSIP/102" "spy" "Response: Success\r\n\r\n").1.status = "success" := by
  have he := (performSpy_response "PJSIP/102" "whisper"
    "Response: Error\r\nMessage: No such channel\r\n\r\n").2.2 (by decide)
  have hs := (performSpy_response "PJSIP/102" "spy"
    "Response: Success\r\n\r\n").2.1.mpr (Or.inl (by decide))
  exact ⟨by
    have h1 := he.1
    have h2 := he.2.1
    cases hp : (performSpy "PJSIP/102" "whisper"
      "Response: Error\r\nMessage: No such channel\r\n\r\n").1 with
    | mk st msg =>
      rw [hp] at h1 h2
      simp at h1 h2
      simp [h1, h2], hs⟩

theorem readUntilDelim_rest_le (s : List (List Char)) :
    ∀ acc, (readUntilDelim s acc).2.length ≤ s.length := by
  induction s with
  | nil => intro acc; simp [readUntilDelim]
  | cons l rest ih =>
    intro acc
    simp only [readUntilDelim]
    split_ifs with h1 h2
    · exact Nat.le_succ rest.length
    · exact Nat.le_succ rest.length
    · exact Nat.le_trans (ih _) (Nat.le_succ _)

theorem readUntilDelim_cons_le (l : List Char) (rest : List (List Char))
    (acc : List Char) :
    (readUntilDelim (l :: rest) acc).2.length ≤ rest.length := by
  simp only [readUntilDelim]
  split_ifs with h1 h2
  · exact Nat.le_refl rest.length
  · exact Nat.le_refl rest.length
  · exact readUntilDelim_rest_le rest _

theorem processStatusEvent_nil (m : ChanMap) : processStatusEvent m [] = m := by
  unfold processStatusEvent
  rw [if_neg (by decide)]

theorem queueLoopFuel_terminates :
    ∀ (n : Nat) (s : List (List Char)) (acc : List Event),
      s.length < n → (queueLoopFuel n s acc).isSome = true := by
  intro n
  induction n with
  | zero => intro s acc h; exact absurd h (Nat.not_lt_zero _)
  | succ n ih =>
    intro s acc h
    cases s with
    | nil => simp [queueLoopFuel, readUntilDelim]
    | cons l rest =>
      have hlt : (readUntilDelim (l :: rest) []).2.length < n := by
        have hle := readUntilDelim_cons_le l rest []
        simp only [List.length_cons] at h
        omega
      simp only [queueLoopFuel]
      split_ifs with h1 h2 h3
      · simp
      · simp
      · exact ih _ _ hlt
      · exact ih _ _ hlt

theorem statusLoopFuel_closed_stream_none :
    ∀ (n : Nat) (m : ChanMap), statusLoopFuel n [] m = none := by
  intro n
  induction n with
  | zero => intro m; rfl
  | succ n ih =>
    intro m
    simp only [statusLoopFuel]
    rw [if_neg (by decide)]
    exact ih _

/-- Claim C7 counterexample: on a stream that has closed before the
`StatusComplete` terminator arrives, one iteration of the `Status` block
loop reads an empty block, ignores it, and returns to the very same loop
state — the loop spins forever instead of timing out. -/
theorem statusLoop_closed_stream_spins :
    statusLoopStep [] [] = Sum.inl ([], []) := by
  decide

/-- Claim C7 (amended): `_read_until_delimiter` returns on every stream
that closes, and the `QueueStatusComplete` loop, which breaks on the
resulting empty block, terminates on every such stream; but the
`StatusComplete` loop has no empty-block guard and no per-read timeout,
and once the stream is exhausted it never terminates, for any amount of
fuel. -/
theorem readLoop_termination_split :
    (∀ (s : List (List Char)) (acc : List Event),
      (queueLoopFuel (s.length + 1) s acc).isSome = true)
    ∧ (∀ (n : Nat) (m : ChanMap), statusLoopFuel n [] m = none) :=
  ⟨fun s acc => queueLoopFuel_terminates (s.length + 1) s acc (Nat.lt_succ_self _),
   statusLoopFuel_closed_stream_none⟩

theorem splitlinesAux_cons_no_break (c : Char) (rest acc : List Char)
    (hcr : c ≠ '\r') (hc : isLB c = false) :
    splitlinesAux (c :: rest) acc = splitlinesAux rest (c :: acc) := by
  rw [splitlinesAux.eq_def]
  split <;> rename_i heq
  · exact absurd heq (by simp)
  · rw [List.cons.injEq] at heq
    exact absurd heq.1 hcr
  · rw [List.cons.injEq] at heq
    exact absurd heq.1 hcr
  · rw [List.cons.injEq] at heq
    obtain ⟨h1, h2⟩ := heq
    subst h1
    subst h2
    rw [if_neg (by simp [hc])]

theorem splitlinesAux_no_break :
    ∀ (cs acc : List Char), (∀ c ∈ cs, isLB c = false) → (acc ≠ [] ∨ cs ≠ []) →
      splitlinesAux cs acc = [acc.reverse ++ cs] := by
  intro cs
  induction cs with
  | nil =>
    intro acc _ hne
    have ha : acc ≠ [] := by
      rcases hne with h | h
      · exact h
      · exact absurd rfl h
    cases acc with
    | nil => exact absurd rfl ha
    | cons a as => simp [splitlinesAux]
  | cons c rest ih =>
    intro acc hnb _
    have hc : isLB c = false := hnb c (List.mem_cons_self c rest)
    have hcr : c ≠ '\r' := by
      intro h
      rw [h] at hc
      exact absurd hc (by decide)
    rw [splitlinesAux_cons_no_break c rest acc hcr hc]
    rw [ih (c :: acc) (fun x hx => hnb x (List.mem_cons_of_mem c hx)) (Or.inl (by simp))]
    simp

theorem splitlinesL_single (cs : List Char) (hne : cs ≠ [])
    (hnb : ∀ c ∈ cs, isLB c = false) : splitlinesL cs = [cs] := by
  unfold splitlinesL
  rw [splitlinesAux_no_break cs [] hnb (Or.inr hne)]
  simp

theorem splitAtColon_first (pre post : List Char) (h : ':' ∉ pre) :
    splitAtColon (pre ++ ':' :: post) = some (pre, post) := by
  induction pre with
  | nil => simp [splitAtColon]
  | cons c rest ih =>
    have hc : c ≠ ':' := fun hh => h (by rw [hh]; exact List.mem_cons_self _ _)
    have hr : ':' ∉ rest := fun hh => h (List.mem_cons_of_mem c hh)
    simp [splitAtColon, hc, ih hr]

theorem splitAtColon_none (line : List Char) (h : ':' ∉ line) :
    splitAtColon line = none := by
  induction line with
  | nil => rfl
  | cons c rest ih =>
    have hc : c ≠ ':' := fun hh => h (by rw [hh]; exact List.mem_cons_self _ _)
    have hr : ':' ∉ rest := fun hh => h (List.mem_cons_of_mem c hh)
    simp [splitAtColon, hc, ih hr]

theorem pyStripL_cons_space (cs : List Char) : pyStripL (' ' :: cs) = pyStripL cs := by
  unfold pyStripL
  rw [List.dropWhile_cons, if_pos (by decide)]

theorem dictSet_cons_ne {α : Type} (p : String × α) (rest : List (String × α))
    (k : String) (v : α) (hp : p.1 ≠ k) :
    dictSet (p :: rest) k v = p :: dictSet rest k v := by
  unfold dictSet
  cases hb : rest.any (fun q => q.1 = k) with
  | true => simp [List.any_cons, hp, hb]
  | false => simp [List.any_cons, hp, hb]

theorem dGet_cons_ne {α : Type} (p : String × α) (rest : List (String × α))
    (k : String) (hp : p.1 ≠ k) : dGet (p :: rest) k = dGet rest k := by
  simp [dGet, List.find?_cons, hp]

theorem dGet_dictSet {α : Type} (d : List (String × α)) (k : String) (v : α) :
    dGet (dictSet d k v) k = some v := by
  induction d with
  | nil => simp [dictSet, dGet, List.find?]
  | cons p rest ih =>
    by_cases hp : p.1 = k
    · have ha : (p :: rest).any (fun q => q.1 = k) = true := by
        simp [List.any_cons, hp]
      simp [dictSet, ha, dGet, List.find?_cons, hp]
    · rw [dictSet_cons_ne p rest k v hp, dGet_cons_ne _ _ _ hp]
      exact ih

theorem parse_encode_roundtrip (K V : String)
    (hK : ':' ∉ K.data)
    (hKb : ∀ c ∈ K.data, isLB c = false)
    (hVb : ∀ c ∈ V.data, isLB c = false)
    (hKs : pyStripL K.data = K.data)
    (hVs : pyStripL V.data = V.data) :
    parseBlock (encodeField K V) = [(K, V)] := by
  have hdata : (encodeField K V).data = K.data ++ ':' :: ' ' :: V.data := by
    show (K ++ ": " ++ V).data = _
    have h1 : (K ++ ": " ++ V).data = K.data ++ (": ").data ++ V.data := rfl
    rw [h1]
    simp
  unfold parseBlock parseBlockL
  rw [hdata]
  rw [splitlinesL_single _ (by simp) ?nb]
  case nb =>
    intro c hcm
    rcases List.mem_append.mp hcm with h | h
    · exact hKb c h
    · rcases List.mem_cons.mp h with h | h
      · rw [h]; decide
      · rcases List.mem_cons.mp h with h | h
        · rw [h]; decide
        · exact hVb c h
  show parseLineStep [] (K.data ++ ':' :: ' ' :: V.data) = [(K, V)]
  unfold parseLineStep
  rw [splitAtColon_first _ _ hK]
  show dictSet [] (String.mk (pyStripL K.data)) (String.mk (pyStripL (' ' :: V.data))) = [(K, V)]
  rw [hKs, pyStripL_cons_space, hVs]
  simp [dictSet]

/-- Claim C8: `_parse_block` splits each line at its first colon and trims
both key and value; a line without a colon is ignored without error; when
a field name occurs more than once the last-seen value is kept; and for
every valid field line, decoding the re-encoded form of `K` and `V`
recovers exactly `K` and `V`. -/
theorem parseBlock_contract :
    (∀ (d : Event) (pre post : List Char), ':' ∉ pre →
      parseLineStep d (pre ++ ':' :: post) =
        dictSet d (String.mk (pyStripL pre)) (String.mk (pyStripL post)))
    ∧ (∀ (d : Event) (line : List Char), ':' ∉ line → parseLineStep d line = d)
    ∧ (∀ (d : Event) (k v : String), dGet (dictSet d k v) k = some v)
    ∧ dGet (parseBlock "K: a\r\nK: b\r\n\r\n") "K" = some "b"
    ∧ (∀ K V : String, ':' ∉ K.data →
        (∀ c ∈ K.data, isLB c = false) → (∀ c ∈ V.data, isLB c = false) →
        pyStripL K.data = K.data → pyStripL V.data = V.data →
        parseBlock (encodeField K V) = [(K, V)]) := by
  refine ⟨?_, ?_, ?_, by decide, ?_⟩
  · intro d pre post h
    unfold parseLineStep
    rw [splitAtColon_first _ _ h]
  · intro d line h
    unfold parseLineStep
    rw [splitAtColon_none _ h]
  · exact fun d k v => dGet_dictSet d k v
  · exact fun K V h1 h2 h3 h4 h5 => parse_encode_roundtrip K V h1 h2 h3 h4 h5

/-- Concrete instantiation of `parseBlock_contract`: splitting and
trimming one field line, ignoring a colon-free line, last-wins lookup,
and the decode-of-encode round trip. -/
theorem parseBlock_contract_witness :
    parseLineStep [] ("Key".data ++ ':' :: " Val ".data) =
      dictSet [] (String.mk (pyStripL "Key".data)) (String.mk (pyStripL " Val ".data))
    ∧ parseLineStep [("A", "b")] "no colon line".data = [("A", "b")]
    ∧ dGet (dictSet [("K", "a")] "K" "b") "K" = some "b"
    ∧ parseBlock (encodeField "Event" "Status") = [("Event", "Status")] :=
  ⟨parseBlock_contract.1 [] "Key".data " Val ".data (by decide),
   parseBlock_contract.2.1 [("A", "b")] "no colon line".data (by decide),
   parseBlock_contract.2.2.1 [("K", "a")] "K" "b",
   parseBlock_contract.2.2.2.2 "Event" "Status" (by decide) (by decide)
     (by decide) (by decide) (by decide)⟩

end CrudQueueStatus
